import Mathlib

/-
  Shallow embedding of mailur's remote-sync engine (src/mailur/remote.py)
  and of its query-translation / HTTP layer (src/mailur/web.py).

  Byte strings of the Python code are modelled as Lean `String`s; the
  SHA-256 function, the modified-UTF-7 decoder (module `imap_utf7`) and the
  tag registry (`local.get_tag`) are opaque to the code under scrutiny and
  are passed as function parameters.  Python dictionaries are modelled as
  functions into `Option`, Python sets as lists with membership statements.
-/

set_option maxHeartbeats 1000000

/-! ### remote.py: fetch_imap (lines 92-151) -/

def crlf : String := "\r\n"

/-- Row stored in the local `SRC` mailbox: the `X-SHA256` dedup key scanned
from its headers, plus the appended (internaldate, flags, payload) triple. -/
structure SrcRow where
  sha : String
  time : String
  flags : String
  payload : String
deriving DecidableEq, Repr

/-- Message as fetched from a generic remote: `(UID INTERNALDATE FLAGS BODY.PEEK[])`. -/
structure RemMsg where
  uid : Nat
  time : String
  flags : String
  raw : String
deriving DecidableEq, Repr

/-- `map_tags` of `fetch_imap` (remote.py lines 94-99). -/
def map_tags_imap (t : String) : Option String :=
  if t = "\\Inbox" then some "#inbox"
  else if t = "\\Junk" then some "#spam"
  else if t = "\\Trash" then some "#trash"
  else if t = "\\Sent" then some "#sent"
  else none

/-- Flag string of an appended row: `' '.join([flags, map_tags[tag]])` when the
folder tag is one of the four special-use ones (remote.py lines 129-131). -/
def imapRowFlags (tag : Option String) (flags : String) : String :=
  match tag with
  | some t =>
    match map_tags_imap t with
    | some mt => flags ++ " " ++ mt
    | none => flags
  | none => flags

/-- Provenance header block of `fetch_imap` (remote.py lines 133-141): the three
headers and a final empty string, joined with CRLF. -/
def provImap (hash host login : String) : String :=
  String.intercalate crlf
    ["X-SHA256: <" ++ hash ++ ">",
     "X-Remote-Host: <" ++ host ++ ">",
     "X-Remote-Login: <" ++ login ++ ">",
     ""]

/-- Row appended by `fetch_imap` for one remote message (remote.py lines 112-144). -/
def mkImapRow (sha : String → String) (host login : String) (tag : Option String)
    (m : RemMsg) : SrcRow :=
  { sha := sha m.raw
    time := m.time
    flags := imapRowFlags tag m.flags
    payload := provImap (sha m.raw) host login ++ m.raw }

/-- The `exists` index of `fetch_imap` (remote.py lines 100-108): the `X-SHA256`
values scanned from all rows of `SRC`. -/
def shaList (src : List SrcRow) : List String :=
  src.map (fun r => r.sha)

/-- One call of `fetch_imap` (remote.py lines 92-151): scan the dedup index,
skip batch messages whose hash is already present, multiappend the rest. -/
def fetch_imap (sha : String → String) (host login : String) (tag : Option String)
    (src : List SrcRow) (batch : List RemMsg) : List SrcRow :=
  let ex := shaList src
  let msgs := (batch.filter (fun m => !(ex.contains (sha m.raw)))).map
    (mkImapRow sha host login tag)
  src ++ msgs

/-- Number of `SRC` rows carrying a given `X-SHA256` value. -/
def countSha (src : List SrcRow) (h : String) : Nat :=
  (src.filter (fun r => r.sha = h)).length

/-! ### remote.py: flags_by_gmail (lines 167-212) -/

/-- The `flag` callback of `flags_by_gmail` (remote.py lines 170-176, 189-193):
the five IMAP system flags map to themselves, everything else (and the empty
match) maps to the empty string. -/
def map_flags_tok (t : String) : String :=
  if t = "\\Answered" ∨ t = "\\Flagged" ∨ t = "\\Deleted" ∨ t = "\\Seen" ∨
      t = "\\Draft" then t
  else ""

/-- `map_labels` of `flags_by_gmail` (remote.py lines 177-187); `none` means
the label is not in the dictionary and falls through to `local.get_tag`. -/
def map_labels_tok (l : String) : Option String :=
  if l = "\\Drafts" then some "\\Draft"
  else if l = "\\Draft" then some "\\Draft"
  else if l = "\\Starred" then some "\\Flagged"
  else if l = "\\Inbox" then some "#inbox"
  else if l = "\\Junk" then some "#spam"
  else if l = "\\Trash" then some "#trash"
  else if l = "\\Sent" then some "#sent"
  else if l = "\\Chats" then some "#chats"
  else if l = "\\Important" then some ""
  else none

/-- Python `str.strip('"')`: remove every leading and trailing double quote. -/
def stripQuotes (s : String) : String :=
  String.mk (((s.data.dropWhile (fun c => c = '"')).reverse.dropWhile
    (fun c => c = '"')).reverse)

/-- Python `str.replace('\\\\', '\\')`: left-to-right replacement of each pair
of backslashes by a single one. -/
def decodeBackslashes : List Char → List Char
  | '\\' :: '\\' :: rest => '\\' :: decodeBackslashes rest
  | c :: rest => c :: decodeBackslashes rest
  | [] => []

/-- Python `str.strip()`: remove leading and trailing whitespace. -/
def isSpaceChar (c : Char) : Bool :=
  c = ' ' ∨ c = '\t' ∨ c = '\n' ∨ c = '\r'

def pyStrip (s : String) : String :=
  String.mk (((s.data.dropWhile isSpaceChar).reverse.dropWhile isSpaceChar).reverse)

/-- Tokenizer of the label string, the effective behaviour of
`re.sub(r'("[^"]*"|[^" ]*)', label, labels)` (remote.py line 209): tokens are
double-quoted groups or maximal runs free of quotes and spaces; empty matches
produce nothing.  The fuel argument is the length of the char list, which
strictly exceeds the chars consumed before each recursive call. -/
def labelTokensAux : Nat → List Char → List String
  | 0, _ => []
  | _ + 1, [] => []
  | fuel + 1, c :: rest =>
    if c = ' ' then labelTokensAux fuel rest
    else if c = '"' then
      match rest.dropWhile (fun ch => ch ≠ '"') with
      | '"' :: tail =>
        String.mk ('"' :: (rest.takeWhile (fun ch => ch ≠ '"') ++ ['"'])) ::
          labelTokensAux fuel tail
      | _ => labelTokensAux fuel rest
    else
      String.mk ((c :: rest).takeWhile (fun ch => ch ≠ ' ' ∧ ch ≠ '"')) ::
        labelTokensAux fuel ((c :: rest).dropWhile (fun ch => ch ≠ ' ' ∧ ch ≠ '"'))

def labelTokens (l : List Char) : List String :=
  labelTokensAux l.length l

/-- The `label` callback of `flags_by_gmail` (remote.py lines 195-204): strip
quotes, decode doubled backslashes, decode modified UTF-7 (`utf7`), then map
through `map_labels`, falling back to the tag registry (`getTag`). -/
def gmailLabelTok (utf7 getTag : String → String) (t : String) : String :=
  if t = "" then ""
  else
    let l := utf7 (String.mk (decodeBackslashes (stripQuotes t).data))
    match map_labels_tok l with
    | some f => f
    | none => getTag l

/-- Split on single spaces keeping empty segments, the effective behaviour of
`re.sub(r'([^ ])*', flag, flags)` on the flag string (remote.py line 206). -/
def splitSpAux (cur : List Char) : List Char → List String
  | [] => [String.mk cur.reverse]
  | c :: rest =>
    if c = ' ' then String.mk cur.reverse :: splitSpAux [] rest
    else splitSpAux (c :: cur) rest

def splitSp (s : String) : List String :=
  splitSpAux [] s.data

/-- `flags_by_gmail` (remote.py lines 167-212): map the flag tokens, map the
label tokens, append the folder-of-origin tag via `map_labels.get(tag, '')`,
join with spaces and strip. -/
def flags_by_gmail (utf7 getTag : String → String) (tagv flagsStr labelsStr : String) :
    String :=
  let fl := String.intercalate " " ((splitSp flagsStr).map map_flags_tok)
  let lb := String.intercalate " "
    ((labelTokens labelsStr.data).map (gmailLabelTok utf7 getTag))
  let tg := (map_labels_tok tagv).getD ""
  pyStrip (String.intercalate " " [fl, lb, tg])

/-! ### remote.py: fetch_gmail (lines 215-298) -/

/-- Message as fetched from Gmail with
`(INTERNALDATE FLAGS BODY.PEEK[] X-GM-LABELS X-GM-MSGID X-GM-THRID)`. -/
structure GmailMsg where
  uid : String
  msgid : String
  thrid : String
  time : String
  flags : String
  labels : String
  raw : String
deriving DecidableEq, Repr

/-- Row stored in `SRC` by `fetch_gmail`, with its `X-GM-MSGID` dedup key. -/
structure GmSrcRow where
  msgid : String
  sha : String
  time : String
  flags : String
  payload : String
deriving DecidableEq, Repr

/-- The `SKIP_DRAFTS` constant (remote.py line 11). -/
def SKIP_DRAFTS : Bool := true

/-- Python's substring test `needle in hay`. -/
def containsSub (needle : List Char) : List Char → Bool
  | [] => needle.isEmpty
  | c :: rest => needle.isPrefixOf (c :: rest) || containsSub needle rest

/-- A flag token matched by the thread-id keyword pattern `mlr/thrid/\d+`
(remote.py lines 280-285). -/
def isThridTok (t : String) : Bool :=
  ("mlr/thrid/".data).isPrefixOf t.data ∧
    (t.data.drop 10) ≠ [] ∧ (t.data.drop 10).all Char.isDigit

/-- Provenance header block of `fetch_gmail` (remote.py lines 273-289): five
headers, the optional `X-Thread-ID`, and a final empty string, joined with CRLF. -/
def provGmail (hash uid msgid thrid login : String) (xthrid : Option String) : String :=
  String.intercalate crlf
    (["X-SHA256: <" ++ hash ++ ">",
      "X-GM-UID: <" ++ uid ++ ">",
      "X-GM-MSGID: <" ++ msgid ++ ">",
      "X-GM-THRID: <" ++ thrid ++ ">",
      "X-GM-Login: <" ++ login ++ ">"] ++
     (match xthrid with
      | some t => ["X-Thread-ID: <" ++ t ++ "@mailur.link>"]
      | none => []) ++
     [""])

/-- Row appended by `fetch_gmail` for one remote message (remote.py lines
246-292): map flags and labels, move a `mlr/thrid/N` keyword from the flags to
the `X-Thread-ID` header, prepend the provenance headers to the raw bytes. -/
def mkGmailRow (sha utf7 getTag : String → String) (login tagv : String)
    (m : GmailMsg) : GmSrcRow :=
  let flags0 := flags_by_gmail utf7 getTag tagv m.flags m.labels
  let toks := splitSp flags0
  let xthrid := (toks.filter isThridTok).head?
  let flags :=
    match xthrid with
    | none => flags0
    | some _ => String.intercalate " " (toks.filter (fun t => !(isThridTok t)))
  { msgid := m.msgid
    sha := sha m.raw
    time := m.time
    flags := flags
    payload := provGmail (sha m.raw) m.uid m.msgid m.thrid login xthrid ++ m.raw }

/-- The `existing` index of `fetch_gmail` built by `uids_by_msgid_gmail`
(remote.py lines 154-164): the `X-GM-MSGID` values present in `SRC`. -/
def msgidList (src : List GmSrcRow) : List String :=
  src.map (fun r => r.msgid)

/-- One call of `fetch_gmail` (remote.py lines 215-298): first pass drops uids
whose `X-GM-MSGID` is already in `SRC`; the second pass re-checks the msgid,
skips empty bodies and (with `SKIP_DRAFTS`) messages whose mapped flags contain
`\Draft` as a substring, then multiappends the rest. -/
def fetch_gmail (sha utf7 getTag : String → String) (login tagv : String)
    (src : List GmSrcRow) (batch : List GmailMsg) : List GmSrcRow :=
  let ex := msgidList src
  let newBatch := batch.filter (fun m => !(ex.contains m.msgid))
  let kept := newBatch.filter (fun m =>
    !(m.raw = "") && !(ex.contains m.msgid) &&
    !(SKIP_DRAFTS &&
      containsSub ("\\Draft".data)
        (flags_by_gmail utf7 getTag tagv m.flags m.labels).data))
  src ++ kept.map (mkGmailRow sha utf7 getTag login tagv)

/-- Number of `SRC` rows carrying a given `X-GM-MSGID` value. -/
def countMsgid (src : List GmSrcRow) (g : String) : Nat :=
  (src.filter (fun r => r.msgid = g)).length

/-! ### remote.py: sync_gmail (lines 355-494) -/

/-- `label_by_flag` of `sync_gmail` (remote.py lines 363-368). -/
def label_by_flag (f : String) : Option String :=
  if f = "#trash" then some "\\Trash"
  else if f = "#spam" then some "\\Junk"
  else if f = "#inbox" then some "\\Inbox"
  else if f = "\\Flagged" then some "\\Starred"
  else none

/-- `set(label_by_flag.values())` (remote.py line 389). -/
def labelValues : List String := ["\\Trash", "\\Junk", "\\Inbox", "\\Starred"]

/-- `folders` of `sync_gmail` (remote.py line 369). -/
def gmFolders : List String := ["\\Trash", "\\Junk"]

/-- State of one remote Gmail message: its label set, the special-use tag of
the folder where `find_uid_remote` located it, and its `\Seen` flag. -/
structure GmMsg where
  labels : List String
  tag : String
  seen : Bool
deriving DecidableEq, Repr

/-- `labels = \x7blabel_by_flag[f] for f in flags if f in label_by_flag\x7d`
(remote.py line 388). -/
def labelsWanted (flags : List String) : List String :=
  flags.filterMap label_by_flag

/-- `labels_removed = set(label_by_flag.values()) - labels` (remote.py line 389). -/
def labelsRemoved (flags : List String) : List String :=
  labelValues.filter (fun l => l ∉ labelsWanted flags)

/-- `STORE +X-GM-LABELS` on one message. -/
def storeAdd (st : GmMsg) (ls : List String) : GmMsg :=
  { st with labels := st.labels ++ ls }

/-- `STORE -X-GM-LABELS` on one message. -/
def storeRemove (st : GmMsg) (ls : List String) : GmMsg :=
  { st with labels := st.labels.filter (fun l => l ∉ ls) }

/-- `sync_msg_to_remote` (remote.py lines 382-401), acting on the state of the
one remote message with the pushed uid's `X-GM-MSGID`: when a `\Trash`/`\Junk`
label is being removed while the message lives in that folder, first add
`\Inbox` to relocate it; then add the wanted labels, remove the unwanted ones,
and set `\Seen` from the local flag set via `FLAGS.SILENT`. -/
def sync_msg_to_remote (st : GmMsg) (flags : List String) : GmMsg :=
  let labels := labelsWanted flags
  let rem := labelsRemoved flags
  let st1 :=
    if (rem.filter (fun l => l ∈ gmFolders)) ≠ [] ∧ st.tag ∈ gmFolders then
      storeAdd st ["\\Inbox"]
    else st
  let st2 := if labels ≠ [] then storeAdd st1 labels else st1
  let st3 := if rem ≠ [] then storeRemove st2 rem else st2
  { st3 with seen := flags.contains "\\Seen" }

/-- `both_changes` membership (remote.py line 460). -/
def in_both (loc rem : String → Option (List String)) (u : String) : Bool :=
  (loc u).isSome && (rem u).isSome

/-- `local_changes` membership (remote.py line 461). -/
def in_local_only (loc rem : String → Option (List String)) (u : String) : Bool :=
  (loc u).isSome && !((rem u).isSome)

/-- `remote_changes` membership (remote.py line 462). -/
def in_remote_only (loc rem : String → Option (List String)) (u : String) : Bool :=
  (rem u).isSome && !((loc u).isSome)

/-- `uids_to_remote = both_changes | local_changes` (remote.py line 464). -/
def uids_to_remote (loc rem : String → Option (List String)) (u : String) : Bool :=
  in_both loc rem u || in_local_only loc rem u

/-- Push phase of `sync_flags` (remote.py lines 464-471), pointwise on the
store of remote message states (indexed by local uid through `msgids_by_uid`
and `find_uid_remote`; `none` when the msgid is not found remotely, in which
case `sync_msg_to_remote` returns without storing anything): every uid of
`uids_to_remote` is pushed with its local flag set `flags_by_uid_local[uid]`. -/
def sync_flags_push (loc rem : String → Option (List String))
    (store : String → Option GmMsg) : String → Option GmMsg :=
  fun u =>
    if uids_to_remote loc rem u then
      (store u).map (fun st => sync_msg_to_remote st ((loc u).getD []))
    else store u

/-- `flags_synced` of the pull phase (remote.py line 474). -/
def flags_synced : List String := ["#trash", "#spam", "#inbox", "\\Flagged", "\\Seen"]

/-- Modelled from the spec: `local.msgs_flag(uids, old, new)` (module `local`
is not part of the sources here; spec section 6 gives the `POST /msgs/flag`
interface `(uids, old, new)` and section 4.3 its use to add and remove
keywords) removes the `old` flags and adds the `new` flags on each uid. -/
def msgs_flag (st old new : List String) : List String :=
  (st.filter (fun f => f ∉ old)) ++ new

/-- Pull phase of `sync_flags` for one `remote_only` uid (remote.py lines
476-483), acting on the flag set of the parsed-side pair uids: add the whole
remote flag set when non-empty, then remove the synced flags absent from it. -/
def sync_pull_one (st remoteFlags : List String) : List String :=
  let st1 := if remoteFlags ≠ [] then msgs_flag st [] remoteFlags else st
  let removed := flags_synced.filter (fun f => f ∉ remoteFlags)
  if removed ≠ [] then msgs_flag st1 removed [] else st1

/-! ### remote.py: fetch_folder (lines 301-324) -/

/-- `fetch_folder` (remote.py lines 301-324) up to the dispatch of the batches:
from the saved cursor and the remote folder's `UIDVALIDITY`/`UIDNEXT`, compute
the list of uids to fetch (the server's answer to `UID n:*`, re-filtered to
`uid >= n`) and the cursor persisted at the end of the cycle. -/
def fetch_folder (saved : Option (Nat × Nat)) (remUV remUN : Nat)
    (search : Nat → List Nat) : List Nat × (Nat × Nat) :=
  let p : Nat × Nat :=
    match saved with
    | none => (remUV, 1)
    | some (v, n) => if remUV ≠ v then (remUV, 1) else (v, n)
  let uids := (search p.2).filter (fun i => p.2 ≤ i)
  (uids, (p.1, remUN))

/-- Events of one `fetch_folder` cycle: appends of dispatched batches into
`SRC`, and the persisting of the `(uidvalidity, uidnext)` cursor by
`data_uidnext` (remote.py line 324). -/
inductive FetchEv where
  | append (uids : List Nat)
  | persistCursor (cur : Nat × Nat)
deriving DecidableEq, Repr

def FetchEv.isAppend : FetchEv → Bool
  | .append _ => true
  | _ => false

def FetchEv.isPersist : FetchEv → Bool
  | .persistCursor _ => true
  | _ => false

/-- Modelled from the spec: `imap.Uids(uids).call_async(fetch_uids, ...)`
(module `imap` is not part of the sources here; spec sections 4.2 and 5 say
the uid list is dispatched in batched asynchronous fetches and that cursor
persistence happens only after all appends complete) runs every batch append
to completion before `fetch_folder` continues. -/
def call_async_events (batches : List (List Nat)) : List FetchEv :=
  batches.map FetchEv.append

/-- Event trace of one `fetch_folder` call (remote.py lines 319-324): when the
uid list is non-empty its batches are dispatched and awaited, and only then is
the new cursor written. -/
def fetch_folder_events (saved : Option (Nat × Nat)) (remUV remUN : Nat)
    (search : Nat → List Nat) (split : List Nat → List (List Nat)) : List FetchEv :=
  let r := fetch_folder saved remUV remUN search
  (if r.1.length ≠ 0 then call_async_events (split r.1) else []) ++
    [FetchEv.persistCursor r.2]

/-! ### web.py: parse_query (lines 422-524) -/

/-- One hexadecimal digit, lowercase. -/
def hexDigit (n : Nat) : Char :=
  if n < 10 then Char.ofNat (48 + n) else Char.ofNat (87 + n)

/-- Escape of one character inside a JSON string literal, as produced by
`json.dumps(..., ensure_ascii=False)` (web.py lines 423-424). -/
def jsonEscChar (c : Char) : String :=
  if c = '"' then "\\\""
  else if c = '\\' then "\\\\"
  else if c = '\n' then "\\n"
  else if c = '\t' then "\\t"
  else if c = '\r' then "\\r"
  else if c.toNat = 8 then "\\b"
  else if c.toNat = 12 then "\\f"
  else if c.toNat < 32 then
    String.mk ['\\', 'u', '0', '0', hexDigit (c.toNat / 16), hexDigit (c.toNat % 16)]
  else String.mk [c]

/-- `escape(val) = json.dumps(val, ensure_ascii=False)` (web.py lines 423-424). -/
def jsonStr (s : String) : String :=
  "\"" ++ String.join (s.data.map jsonEscChar) ++ "\""

/-- C-locale `%b` month abbreviation of `strftime`. -/
def monthAbbrev (m : Nat) : String :=
  if m = 1 then "Jan" else if m = 2 then "Feb" else if m = 3 then "Mar"
  else if m = 4 then "Apr" else if m = 5 then "May" else if m = 6 then "Jun"
  else if m = 7 then "Jul" else if m = 8 then "Aug" else if m = 9 then "Sep"
  else if m = 10 then "Oct" else if m = 11 then "Nov" else if m = 12 then "Dec"
  else ""

/-- Two-digit `%d` day field of `strftime`. -/
def pad2 (n : Nat) : String :=
  if n < 10 then "0" ++ toString n else toString n

/-- `strftime('%d-%b-%Y')` (web.py line 476). -/
def fmtD (y m d : Nat) : String :=
  pad2 d ++ "-" ++ monthAbbrev m ++ "-" ++ toString y

def isLeap (y : Nat) : Bool :=
  (y % 4 = 0 && y % 100 ≠ 0) || (y % 400 = 0)

def daysInMonth (y m : Nat) : Nat :=
  if m = 2 then (if isLeap y then 29 else 28)
  else if m = 4 ∨ m = 6 ∨ m = 9 ∨ m = 11 then 30
  else 31

/-- The `date:` branch of `parse_query.replace` (web.py lines 463-480).
`none` models the `ValueError` raised by `datetime.strptime` on an invalid
token (month or day out of range, `datetime.MINYEAR`/`MAXYEAR` violated) or by
`date.replace` when the widened month or year leaves its legal range; bottle
then answers the request with status 500 and no query is produced. -/
def dateClause (y : Nat) (m d : Option Nat) : Option String :=
  if y = 0 ∨ 9999 < y then none
  else
    match m, d with
    | none, none =>
      if 9999 < y + 1 then none
      else some ("since " ++ fmtD y 1 1 ++ " before " ++ fmtD (y + 1) 1 1)
    | some mv, none =>
      if mv = 0 ∨ 12 < mv then none
      else if 12 < mv + 1 then none
      else some ("since " ++ fmtD y mv 1 ++ " before " ++ fmtD y (mv + 1) 1)
    | some mv, some dv =>
      if mv = 0 ∨ 12 < mv ∨ dv = 0 ∨ daysInMonth y mv < dv then none
      else some ("on " ++ fmtD y mv dv)
    | none, some _ => none

/-- Tokens recognized by the `parse_query` regex (web.py lines 487-507), one
constructor per alternative; `text` carries a run of unrecognized free text. -/
inductive QTok where
  | rawQ (rest : String)
  | thread (id : Nat)
  | threads
  | tagQ (id : String)
  | subj (v : String)
  | fromQ (v : String)
  | mid (v : String)
  | ref (v : String)
  | uidQ (v : Nat)
  | dateQ (y : Nat) (m d : Option Nat)
  | draftFlag
  | unseen
  | seen
  | flagged
  | unflagged
  | draftEdit (id : String)
  | text (s : String)
deriving DecidableEq, Repr

/-- Options accumulated by `parse_query` (web.py lines 436, 453, 456-457,
460-461). -/
structure QOpts where
  thread : Bool
  threads : Bool
  draft : Option String
  tags : List String
deriving DecidableEq, Repr

def emptyOpts : QOpts := { thread := false, threads := false, draft := none, tags := [] }

/-- Option updates of `parse_query.replace` (web.py lines 426-480). -/
def optsStep (o : QOpts) : QTok → QOpts
  | .thread _ => { o with thread := true }
  | .threads => { o with threads := true }
  | .draftEdit id => { o with draft := some id, thread := true }
  | .tagQ id => { o with tags := o.tags ++ [id] }
  | _ => o

def optsOf (toks : List QTok) : QOpts :=
  toks.foldl optsStep emptyOpts

/-- Clause emitted by `parse_query.replace` for one token (web.py lines
426-483): the empty string is not appended to `parts`, `none` models the
exception raised on an invalid date token. -/
def tokClause : QTok → Option String
  | .rawQ rest => some rest
  | .thread id => some ("uid " ++ toString id)
  | .threads => some ""
  | .tagQ id => some ("keyword " ++ id)
  | .subj v => some ("header subject " ++ jsonStr (stripQuotes v))
  | .fromQ v => some ("from " ++ jsonStr v)
  | .mid v => some ("header message-id " ++ v)
  | .ref v => some ("or header message-id " ++ v ++ " header references " ++ v)
  | .uidQ v => some ("uid " ++ toString v)
  | .dateQ y m d => dateClause y m d
  | .draftFlag => some "draft"
  | .unseen => some "unseen"
  | .seen => some "seen"
  | .flagged => some "flagged"
  | .unflagged => some "unflagged"
  | .draftEdit id => some ("header x-draft-id " ++ id)
  | .text _ => some ""

/-- Free text left in `q` after the recognized tokens are replaced by spaces
and runs of spaces are collapsed (web.py lines 508). -/
def residualText (toks : List QTok) : String :=
  pyStrip (String.intercalate " "
    (toks.filterMap (fun t => match t with | .text s => some s | _ => none)))

/-- The full `parts` list of `parse_query` (web.py lines 481-518): the clauses
of the recognized tokens in order, the `text` clause when free text remains,
then the always-appended `unkeyword #link` and the conditional
`unkeyword #trash` / `unkeyword #spam`. -/
def queryClauses (toks : List QTok) : Option (List String) :=
  (toks.mapM tokClause).map (fun cls =>
    let parts := cls.filter (fun c => c ≠ "")
    let res := residualText toks
    let parts := parts ++ (if res = "" then [] else ["text " ++ jsonStr res])
    let parts := parts ++ ["unkeyword #link"]
    let tags := (optsOf toks).tags
    let parts := parts ++ (if tags.contains "#trash" then [] else ["unkeyword #trash"])
    parts ++
      (if tags.contains "#spam" || tags.contains "#trash" then []
       else ["unkeyword #spam"]))

/-- Last steps of `parse_query` (web.py lines 520-523): join the parts (when
there are none, `q` is the residual free text, already empty in that case),
strip, and default the empty query to `all`. -/
def finalizeQuery (parts : List String) : String :=
  let q := if parts.isEmpty then "" else String.intercalate " " parts
  let q := pyStrip q
  if q = "" then "all" else q

/-- `parse_query` (web.py lines 422-524) over the token-level input model. -/
def parse_query (toks : List QTok) : Option (String × QOpts) :=
  (queryClauses toks).map (fun parts => (finalizeQuery parts, optsOf toks))

/-! ### web.py: POST handlers (lines 207-238) -/

/-- Calls issued by the handlers to the local store. -/
inductive WebEff where
  | searchMsgs (q : String)
  | msgsFlag (uids old new : List String)
  | readMsgsInfo (uids : List String)
  | readMsgsBody (uids : List String)
  | readThrsInfo (uids hideTags : List String)
deriving DecidableEq, Repr

/-- Outcome of a handler callback: a normal return, or an exception raised by
bottle's `abort(code)` (an `HTTPError`). -/
inductive HandlerOutcome where
  | ok
  | httpError (code : Nat)
deriving DecidableEq, Repr

/-- `thrs_info` callback body (web.py lines 207-214): effect trace and
outcome; `abort(400)` raises on an empty uid list. -/
def thrs_info (uids hideTags : List String) : List WebEff × HandlerOutcome :=
  if uids.isEmpty then ([], HandlerOutcome.httpError 400)
  else ([WebEff.readThrsInfo uids hideTags], HandlerOutcome.ok)

/-- `msgs_info` callback body (web.py lines 217-224): effect trace and
outcome; `abort(400)` raises on an empty uid list. -/
def msgs_info (uids _hideTags : List String) : List WebEff × HandlerOutcome :=
  if uids.isEmpty then ([], HandlerOutcome.httpError 400)
  else ([WebEff.readMsgsInfo uids], HandlerOutcome.ok)

/-- `msgs_body` callback body (web.py lines 227-238): effect trace and
outcome; `abort(400)` raises on an empty uid list. `searchUnseen` is the
local server's answer to the `unseen` search. -/
def msgs_body (uids : List String) (read : Bool)
    (searchUnseen : String → List String) : List WebEff × HandlerOutcome :=
  if uids.isEmpty then ([], HandlerOutcome.httpError 400)
  else
    let q := "uid " ++ String.intercalate "," uids ++ " unseen"
    let effs :=
      if read then
        let unread := searchUnseen q
        [WebEff.searchMsgs q] ++
          (if unread.isEmpty then [] else [WebEff.msgsFlag unread [] ["\\Seen"]])
      else []
    (effs ++ [WebEff.readMsgsBody uids], HandlerOutcome.ok)

/-- The `endpoint` decorator (web.py lines 47-55): every exception the wrapped
callback raises — including the `HTTPError` that `abort(400)` raises, since
bottle's `HTTPError` derives from `Exception` — is caught by its
`except Exception` arm, which answers the request with status 500 and an
errors body; a normal return is answered with bottle's default status 200.
The HTTP status seen at the boundary for these handlers is this wrapper's. -/
def endpoint : List WebEff × HandlerOutcome → List WebEff × Nat
  | (effs, HandlerOutcome.ok) => (effs, 200)
  | (effs, HandlerOutcome.httpError _) => (effs, 500)

/-! ### Helper lemmas -/

theorem fetch_imap_eq (sha : String → String) (host login : String)
    (tag : Option String) (src : List SrcRow) (batch : List RemMsg) :
    fetch_imap sha host login tag src batch =
      src ++ (batch.filter (fun m => !((shaList src).contains (sha m.raw)))).map
        (mkImapRow sha host login tag) := rfl

theorem countSha_append (s t : List SrcRow) (h : String) :
    countSha (s ++ t) h = countSha s h + countSha t h := by
  simp [countSha, List.filter_append]

theorem countSha_eq_zero_iff (src : List SrcRow) (h : String) :
    countSha src h = 0 ↔ h ∉ shaList src := by
  simp [countSha, shaList, List.length_eq_zero, List.filter_eq_nil_iff]

theorem fetch_imap_step_count (sha : String → String) (host login : String)
    (tag : Option String) (src : List SrcRow) (batch : List RemMsg) (h : String)
    (h1 : countSha src h ≤ 1)
    (h2 : (batch.filter (fun m => sha m.raw = h)).length ≤ 1) :
    countSha (fetch_imap sha host login tag src batch) h ≤ 1 := by
  rw [fetch_imap_eq, countSha_append]
  have key : countSha ((batch.filter
        (fun m => !((shaList src).contains (sha m.raw)))).map
        (mkImapRow sha host login tag)) h
      = ((batch.filter (fun m => !((shaList src).contains (sha m.raw)))).filter
          (fun m => sha m.raw = h)).length := by
    simp [countSha, List.filter_map, Function.comp, mkImapRow]
  rw [key]
  by_cases hc : h ∈ shaList src
  · have hz : ((batch.filter (fun m => !((shaList src).contains (sha m.raw)))).filter
        (fun m => sha m.raw = h)) = [] := by
      rw [List.filter_eq_nil_iff]
      intro m hm
      have hp := (List.mem_filter.mp hm).2
      simp at hp
      simp
      intro heq
      exact hp (heq ▸ hc)
    rw [hz]
    simpa using h1
  · have hz : countSha src h = 0 := (countSha_eq_zero_iff src h).mpr hc
    rw [hz]
    have hsub : List.Sublist
        ((batch.filter (fun m => !((shaList src).contains (sha m.raw)))).filter
          (fun m => sha m.raw = h))
        (batch.filter (fun m => sha m.raw = h)) :=
      (List.filter_sublist batch).filter _
    simpa using le_trans hsub.length_le h2

theorem fetch_imap_fold_count (sha : String → String) (host login : String)
    (tag : Option String) (batches : List (List RemMsg)) :
    ∀ (src : List SrcRow) (h : String), countSha src h ≤ 1 →
      (∀ b ∈ batches, (b.filter (fun m => sha m.raw = h)).length ≤ 1) →
      countSha (batches.foldl (fetch_imap sha host login tag) src) h ≤ 1 := by
  induction batches with
  | nil => intro src h h1 _; simpa using h1
  | cons b bs ih =>
    intro src h h1 h2
    simp only [List.foldl_cons]
    exact ih _ h
      (fetch_imap_step_count sha host login tag src b h h1 (h2 b (by simp)))
      (fun c hc => h2 c (by simp [hc]))

theorem fetch_imap_noop (sha : String → String) (host login : String)
    (tag : Option String) (src : List SrcRow) (m : RemMsg)
    (hm : sha m.raw ∈ shaList src) :
    fetch_imap sha host login tag src [m] = src := by
  rw [fetch_imap_eq]
  have hc : (shaList src).contains (sha m.raw) = true := by
    simpa using hm
  simp only [List.filter_singleton, hc, Bool.not_true, Bool.cond_false, List.map_nil,
    List.append_nil]

theorem fetch_gmail_eq (sha utf7 getTag : String → String) (login tagv : String)
    (src : List GmSrcRow) (batch : List GmailMsg) :
    fetch_gmail sha utf7 getTag login tagv src batch =
      src ++ ((batch.filter (fun m => !((msgidList src).contains m.msgid))).filter
        (fun m =>
          !(m.raw = "") && !((msgidList src).contains m.msgid) &&
          !(SKIP_DRAFTS &&
            containsSub ("\\Draft".data)
              (flags_by_gmail utf7 getTag tagv m.flags m.labels).data))).map
        (mkGmailRow sha utf7 getTag login tagv) := rfl

theorem countMsgid_append (s t : List GmSrcRow) (g : String) :
    countMsgid (s ++ t) g = countMsgid s g + countMsgid t g := by
  simp [countMsgid, List.filter_append]

theorem countMsgid_eq_zero_iff (src : List GmSrcRow) (g : String) :
    countMsgid src g = 0 ↔ g ∉ msgidList src := by
  simp [countMsgid, msgidList, List.length_eq_zero, List.filter_eq_nil_iff]

theorem mkGmailRow_msgid (sha utf7 getTag : String → String) (login tagv : String)
    (m : GmailMsg) : (mkGmailRow sha utf7 getTag login tagv m).msgid = m.msgid := rfl

theorem fetch_gmail_step_count (sha utf7 getTag : String → String)
    (login tagv : String) (src : List GmSrcRow) (batch : List GmailMsg) (g : String)
    (h1 : countMsgid src g ≤ 1)
    (h2 : (batch.filter (fun m => m.msgid = g)).length ≤ 1) :
    countMsgid (fetch_gmail sha utf7 getTag login tagv src batch) g ≤ 1 := by
  rw [fetch_gmail_eq, countMsgid_append]
  set p1 : GmailMsg → Bool := fun m => !((msgidList src).contains m.msgid) with hp1
  set p2 : GmailMsg → Bool := fun m =>
    !(m.raw = "") && !((msgidList src).contains m.msgid) &&
    !(SKIP_DRAFTS &&
      containsSub ("\\Draft".data)
        (flags_by_gmail utf7 getTag tagv m.flags m.labels).data) with hp2
  have key : countMsgid (((batch.filter p1).filter p2).map
      (mkGmailRow sha utf7 getTag login tagv)) g
      = (((batch.filter p1).filter p2).filter (fun m => m.msgid = g)).length := by
    simp [countMsgid, List.filter_map, Function.comp, mkGmailRow]
  rw [key]
  by_cases hc : g ∈ msgidList src
  · have hz : ((batch.filter p1).filter p2).filter (fun m => m.msgid = g) = [] := by
      rw [List.filter_eq_nil_iff]
      intro m hm
      have hmem := (List.mem_filter.mp ((List.mem_filter.mp hm).1)).2
      rw [hp1] at hmem
      simp at hmem
      simp
      intro heq
      exact hmem (heq ▸ hc)
    rw [hz]
    simpa using h1
  · have hz : countMsgid src g = 0 := (countMsgid_eq_zero_iff src g).mpr hc
    rw [hz]
    have hsub : List.Sublist
        (((batch.filter p1).filter p2).filter (fun m => m.msgid = g))
        (batch.filter (fun m => m.msgid = g)) :=
      ((List.filter_sublist batch).filter p2).trans (List.filter_sublist batch)
        |>.filter _
    simpa using le_trans hsub.length_le h2

theorem fetch_gmail_fold_count (sha utf7 getTag : String → String)
    (login tagv : String) (batches : List (List GmailMsg)) :
    ∀ (src : List GmSrcRow) (g : String), countMsgid src g ≤ 1 →
      (∀ b ∈ batches, (b.filter (fun m => m.msgid = g)).length ≤ 1) →
      countMsgid (batches.foldl (fetch_gmail sha utf7 getTag login tagv) src) g ≤ 1 := by
  induction batches with
  | nil => intro src g h1 _; simpa using h1
  | cons b bs ih =>
    intro src g h1 h2
    simp only [List.foldl_cons]
    exact ih _ g
      (fetch_gmail_step_count sha utf7 getTag login tagv src b g h1 (h2 b (by simp)))
      (fun c hc => h2 c (by simp [hc]))

theorem fetch_gmail_noop (sha utf7 getTag : String → String) (login tagv : String)
    (src : List GmSrcRow) (m : GmailMsg) (hm : m.msgid ∈ msgidList src) :
    fetch_gmail sha utf7 getTag login tagv src [m] = src := by
  rw [fetch_gmail_eq]
  have hc : (msgidList src).contains m.msgid = true := by
    simpa using hm
  simp only [List.filter_singleton, hc, Bool.not_true, Bool.cond_false, List.filter_nil,
    List.map_nil, List.append_nil]

/-! ### Claim theorems -/

/-- Claim C1: for every message and every number of times the fetcher
(`fetch_imap` or `fetch_gmail`) processes it, at most one `SRC` row with
`X-SHA256` equal to its hash (for Gmail, at most one row per `X-GM-MSGID`)
exists afterwards: each append batch first scans the existing `SRC` rows for
the dedup key and skips any message whose key is already present, so a
re-fetch of the same message is a no-op. -/
theorem fetch_dedup_unique (sha utf7 getTag : String → String)
    (host login gmLogin gmTag : String) (tag : Option String) :
    (∀ (src : List SrcRow) (batches : List (List RemMsg)) (h : String),
      countSha src h ≤ 1 →
      (∀ b ∈ batches, (b.filter (fun m => sha m.raw = h)).length ≤ 1) →
      countSha (batches.foldl (fetch_imap sha host login tag) src) h ≤ 1) ∧
    (∀ (src : List SrcRow) (m : RemMsg), sha m.raw ∈ shaList src →
      fetch_imap sha host login tag src [m] = src) ∧
    (∀ (src : List GmSrcRow) (batches : List (List GmailMsg)) (g : String),
      countMsgid src g ≤ 1 →
      (∀ b ∈ batches, (b.filter (fun m => m.msgid = g)).length ≤ 1) →
      countMsgid (batches.foldl (fetch_gmail sha utf7 getTag gmLogin gmTag) src) g ≤ 1) ∧
    (∀ (src : List GmSrcRow) (m : GmailMsg), m.msgid ∈ msgidList src →
      fetch_gmail sha utf7 getTag gmLogin gmTag src [m] = src) :=
  ⟨fun src batches h => fetch_imap_fold_count sha host login tag batches src h,
   fun src m => fetch_imap_noop sha host login tag src m,
   fun src batches g => fetch_gmail_fold_count sha utf7 getTag gmLogin gmTag batches src g,
   fun src m => fetch_gmail_noop sha utf7 getTag gmLogin gmTag src m⟩

/-- Witness for C1: two successive fetches of the same message (same bytes
with hash `A`; same Gmail `X-GM-MSGID` `M1`) leave at most one matching row,
and a re-fetch against a `SRC` already holding the key changes nothing. -/
theorem fetch_dedup_unique_witness :
    countSha (([[⟨1, "t1", "", "A"⟩], [⟨2, "t2", "", "A"⟩]] :
        List (List RemMsg)).foldl (fetch_imap id "h" "u" none) []) "A" ≤ 1 ∧
    fetch_imap id "h" "u" none [⟨"A", "t0", "", "pA"⟩] [⟨1, "t1", "", "A"⟩] =
      [⟨"A", "t0", "", "pA"⟩] ∧
    countMsgid (([[⟨"5", "M1", "T1", "t1", "", "", "R"⟩],
        [⟨"6", "M1", "T1", "t2", "", "", "R"⟩]] :
        List (List GmailMsg)).foldl (fetch_gmail id id id "u" "\\All") []) "M1" ≤ 1 ∧
    fetch_gmail id id id "u" "\\All" [⟨"M1", "R", "t0", "", "pR"⟩]
      [⟨"5", "M1", "T1", "t1", "", "", "R"⟩] = [⟨"M1", "R", "t0", "", "pR"⟩] :=
  ⟨(fetch_dedup_unique id id id "h" "u" "u" "\\All" none).1 [] _ "A"
      (by decide) (by decide),
   (fetch_dedup_unique id id id "h" "u" "u" "\\All" none).2.1 _ _ (by decide),
   (fetch_dedup_unique id id id "h" "u" "u" "\\All" none).2.2.1 [] _ "M1"
      (by decide) (by decide),
   (fetch_dedup_unique id id id "h" "u" "u" "\\All" none).2.2.2 _ _ (by decide)⟩

theorem label_by_flag_mem_values (f l : String) (h : label_by_flag f = some l) :
    l ∈ labelValues := by
  unfold label_by_flag at h
  split_ifs at h <;> simp_all [labelValues]

theorem mem_labelsWanted (F : List String) (l : String) :
    l ∈ labelsWanted F ↔ ∃ f ∈ F, label_by_flag f = some l := by
  simp [labelsWanted, List.mem_filterMap]

theorem mem_labelsRemoved (F : List String) (l : String) :
    l ∈ labelsRemoved F ↔ l ∈ labelValues ∧ l ∉ labelsWanted F := by
  simp [labelsRemoved, List.mem_filter]

theorem sync_msg_to_remote_synced (st : GmMsg) (F : List String) (l : String)
    (hl : l ∈ labelValues) :
    (l ∈ (sync_msg_to_remote st F).labels ↔ l ∈ labelsWanted F) := by
  by_cases hw : l ∈ labelsWanted F
  · have hne : labelsWanted F ≠ [] := List.ne_nil_of_mem hw
    have hnr : l ∉ labelsRemoved F := by
      rw [mem_labelsRemoved]
      exact fun hc => hc.2 hw
    simp only [sync_msg_to_remote, storeAdd, storeRemove]
    split_ifs <;>
      simp_all [List.mem_filter, List.mem_append]
  · have hr : l ∈ labelsRemoved F := (mem_labelsRemoved F l).mpr ⟨hl, hw⟩
    have hne : labelsRemoved F ≠ [] := List.ne_nil_of_mem hr
    simp only [sync_msg_to_remote, storeAdd, storeRemove]
    split_ifs <;>
      simp_all [List.mem_filter, List.mem_append]

theorem sync_msg_to_remote_other (st : GmMsg) (F : List String) (l : String)
    (hl : l ∉ labelValues) :
    (l ∈ (sync_msg_to_remote st F).labels ↔ l ∈ st.labels) := by
  have hw : l ∉ labelsWanted F := by
    intro hc
    rw [mem_labelsWanted] at hc
    obtain ⟨f, _, hf⟩ := hc
    exact hl (label_by_flag_mem_values f l hf)
  have hnr : l ∉ labelsRemoved F := by
    rw [mem_labelsRemoved]
    exact fun hc => hl hc.1
  have hni : l ≠ "\\Inbox" := by
    intro hc
    exact hl (by simp [hc, labelValues])
  simp only [sync_msg_to_remote, storeAdd, storeRemove]
  split_ifs <;>
    simp_all [List.mem_filter, List.mem_append]

theorem sync_msg_to_remote_seen (st : GmMsg) (F : List String) :
    (sync_msg_to_remote st F).seen = F.contains "\\Seen" := rfl

/-- Claim C2: in `sync_gmail`'s reconciliation, every local uid in both
changesets or only in the local one is in `uids_to_remote` and has its local
flag set pushed through `sync_msg_to_remote`; afterwards the remote label set
agrees with the local flags on every synced label and is untouched elsewhere,
the remote `\Seen` flag mirrors the local one, and the remote changeset's
value for the uid is discarded (the outcome is the same for any remote
changeset). -/
theorem sync_flags_local_wins (loc rem : String → Option (List String))
    (store : String → Option GmMsg) (u : String) (F : List String) (st : GmMsg)
    (hloc : loc u = some F) (hst : store u = some st) :
    uids_to_remote loc rem u = true ∧
    sync_flags_push loc rem store u = some (sync_msg_to_remote st F) ∧
    (∀ l ∈ labelValues,
      (l ∈ (sync_msg_to_remote st F).labels ↔ l ∈ labelsWanted F)) ∧
    (∀ l, l ∉ labelValues →
      (l ∈ (sync_msg_to_remote st F).labels ↔ l ∈ st.labels)) ∧
    (sync_msg_to_remote st F).seen = F.contains "\\Seen" ∧
    (∀ rem2 : String → Option (List String),
      sync_flags_push loc rem2 store u = some (sync_msg_to_remote st F)) := by
  have hu : ∀ r2 : String → Option (List String), uids_to_remote loc r2 u = true := by
    intro r2
    simp only [uids_to_remote, in_both, in_local_only, hloc, Option.isSome_some,
      Bool.true_and]
    cases (r2 u).isSome <;> simp
  refine ⟨hu rem, ?_, ?_, ?_, sync_msg_to_remote_seen st F, ?_⟩
  · simp [sync_flags_push, hu rem, hst, hloc]
  · exact fun l hl => sync_msg_to_remote_synced st F l hl
  · exact fun l hl => sync_msg_to_remote_other st F l hl
  · intro rem2
    simp [sync_flags_push, hu rem2, hst, hloc]

/-- Witness for C2: uid `u1` changed on both sides; its local flags
`[\Flagged, \Seen]` are pushed, so the remote message (lying in `\Trash`)
ends with labels `[keep, \Starred]` and `\Seen` set, regardless of the remote
changeset's value. -/
theorem sync_flags_local_wins_witness :
    (fun v => if v = "u1" then some ["\\Flagged", "\\Seen"] else none) "u1" =
      some ["\\Flagged", "\\Seen"] ∧
    (fun v => if v = "u1" then
        some (⟨["\\Trash", "keep"], "\\Trash", false⟩ : GmMsg) else none) "u1" =
      some (⟨["\\Trash", "keep"], "\\Trash", false⟩ : GmMsg) ∧
    sync_flags_push (fun v => if v = "u1" then some ["\\Flagged", "\\Seen"] else none)
      (fun v => if v = "u1" then some ["#trash"] else none)
      (fun v => if v = "u1" then
        some (⟨["\\Trash", "keep"], "\\Trash", false⟩ : GmMsg) else none) "u1" =
      some (sync_msg_to_remote (⟨["\\Trash", "keep"], "\\Trash", false⟩ : GmMsg)
        ["\\Flagged", "\\Seen"]) :=
  ⟨by decide, by decide,
   (sync_flags_local_wins
      (fun v => if v = "u1" then some ["\\Flagged", "\\Seen"] else none)
      (fun v => if v = "u1" then some ["#trash"] else none)
      (fun v => if v = "u1" then
        some (⟨["\\Trash", "keep"], "\\Trash", false⟩ : GmMsg) else none)
      "u1" ["\\Flagged", "\\Seen"] (⟨["\\Trash", "keep"], "\\Trash", false⟩ : GmMsg)
      (by decide) (by decide)).2.1⟩

theorem sync_pull_one_synced (st R : List String) (f : String)
    (hf : f ∈ flags_synced) :
    (f ∈ sync_pull_one st R ↔ f ∈ R) := by
  by_cases hr : f ∈ R
  · have hnr : f ∉ flags_synced.filter (fun x => x ∉ R) := by
      simp [List.mem_filter, hr]
    have hRne : R ≠ [] := List.ne_nil_of_mem hr
    simp only [sync_pull_one, msgs_flag]
    split_ifs <;>
      simp_all [List.mem_filter, List.mem_append]
  · have hin : f ∈ flags_synced.filter (fun x => x ∉ R) := by
      simp [List.mem_filter, hf, hr]
    have hne : flags_synced.filter (fun x => x ∉ R) ≠ [] := List.ne_nil_of_mem hin
    simp only [sync_pull_one, msgs_flag]
    split_ifs <;>
      simp_all [List.mem_filter, List.mem_append]

theorem sync_pull_one_other (st R : List String) (f : String)
    (hf : f ∉ flags_synced) :
    (f ∈ sync_pull_one st R ↔ (f ∈ st ∨ f ∈ R)) := by
  have hnr : f ∉ flags_synced.filter (fun x => x ∉ R) := by
    simp [List.mem_filter]
    intro hc
    exact absurd hc hf
  simp only [sync_pull_one, msgs_flag]
  split_ifs <;>
    simp_all [List.mem_filter, List.mem_append]

/-- Counterexample to C3 as stated: the remote-only flag `#sent` lies outside
the synced set `\x7b#trash, #spam, #inbox, \Flagged, \Seen\x7d`, yet the pull
loop applies it to the local side (the loop adds the whole remote flag set,
not its synced subset): pulling remote flags `[#sent]` onto a message with no
local flags leaves `#sent` set locally. -/
theorem sync_pull_nonsynced_leak :
    "#sent" ∈ sync_pull_one [] ["#sent"] ∧ "#sent" ∉ flags_synced ∧
    "#sent" ∉ ([] : List String) := by
  decide

/-- Claim C3, amended: in `sync_gmail`'s pull loop, for every uid changed only
on the remote side, the whole remote flag set is added to the parsed-side pair
uids and exactly the members of the synced set `\x7b#trash, #spam, #inbox,
\Flagged, \Seen\x7d` absent remotely are removed; hence inside the synced set
the local value ends up equal to the remote one, while flags outside the
synced set are added when present remotely and are never removed. -/
theorem sync_pull_amended (st R : List String) :
    (∀ f ∈ flags_synced, (f ∈ sync_pull_one st R ↔ f ∈ R)) ∧
    (∀ f, f ∉ flags_synced → (f ∈ sync_pull_one st R ↔ (f ∈ st ∨ f ∈ R))) :=
  ⟨fun f hf => sync_pull_one_synced st R f hf,
   fun f hf => sync_pull_one_other st R f hf⟩

/-- Witness for C3's amended claim: remote flags `[\Flagged, #sent]` on a
message locally flagged `[#inbox, xx]`: `\Flagged` is pulled in, `#inbox` is
removed, `xx` survives and `#sent` leaks in. -/
theorem sync_pull_amended_witness :
    ("\\Flagged" ∈ flags_synced ∧
      ("\\Flagged" ∈ sync_pull_one ["#inbox", "xx"] ["\\Flagged", "#sent"] ↔
        "\\Flagged" ∈ ["\\Flagged", "#sent"])) ∧
    ("#inbox" ∈ flags_synced ∧
      ("#inbox" ∈ sync_pull_one ["#inbox", "xx"] ["\\Flagged", "#sent"] ↔
        "#inbox" ∈ ["\\Flagged", "#sent"])) ∧
    ("xx" ∉ flags_synced ∧
      ("xx" ∈ sync_pull_one ["#inbox", "xx"] ["\\Flagged", "#sent"] ↔
        ("xx" ∈ ["#inbox", "xx"] ∨ "xx" ∈ ["\\Flagged", "#sent"]))) :=
  ⟨⟨by decide, (sync_pull_amended ["#inbox", "xx"] ["\\Flagged", "#sent"]).1
      "\\Flagged" (by decide)⟩,
   ⟨by decide, (sync_pull_amended ["#inbox", "xx"] ["\\Flagged", "#sent"]).1
      "#inbox" (by decide)⟩,
   ⟨by decide, (sync_pull_amended ["#inbox", "xx"] ["\\Flagged", "#sent"]).2
      "xx" (by decide)⟩⟩

/-- Claim C4: in `fetch_folder`, when the saved `UIDVALIDITY` differs from the
remote one the fetch proceeds exactly as if the saved `UIDNEXT` were 1 (the
search covers `UID 1:*`, re-examining every message), the cursor persisted at
the end of the cycle is the remote `(UIDVALIDITY, UIDNEXT)`, and dedup makes
re-fetching a message whose hash is already in `SRC` a no-op. -/
theorem fetch_folder_uidvalidity_reset (v n remUV remUN : Nat)
    (search : Nat → List Nat) (hne : v ≠ remUV) :
    fetch_folder (some (v, n)) remUV remUN search =
      fetch_folder (some (remUV, 1)) remUV remUN search ∧
    (fetch_folder (some (v, n)) remUV remUN search).1 =
      (search 1).filter (fun i => 1 ≤ i) ∧
    (fetch_folder (some (v, n)) remUV remUN search).2 = (remUV, remUN) ∧
    (∀ (sha : String → String) (host login : String) (tag : Option String)
      (src : List SrcRow) (m : RemMsg), sha m.raw ∈ shaList src →
      fetch_imap sha host login tag src [m] = src) := by
  have hcond : remUV ≠ v := Ne.symm hne
  refine ⟨?_, ?_, ?_, fun sha host login tag src m hm =>
    fetch_imap_noop sha host login tag src m hm⟩ <;>
    simp [fetch_folder, hcond]

/-- Witness for C4, following scenario S3 of the spec: saved cursor `(42, 4)`,
remote rebuilt with `UIDVALIDITY 43`, `UIDNEXT 4` and uids `[1, 2, 3]`. -/
theorem fetch_folder_uidvalidity_reset_witness :
    (42 ≠ 43) ∧
    fetch_folder (some (42, 4)) 43 4 (fun _ => [1, 2, 3]) =
      fetch_folder (some (43, 1)) 43 4 (fun _ => [1, 2, 3]) ∧
    (fetch_folder (some (42, 4)) 43 4 (fun _ => [1, 2, 3])).2 = (43, 4) :=
  ⟨by decide,
   (fetch_folder_uidvalidity_reset 42 4 43 4 (fun _ => [1, 2, 3]) (by decide)).1,
   (fetch_folder_uidvalidity_reset 42 4 43 4 (fun _ => [1, 2, 3]) (by decide)).2.2.1⟩


theorem fetchEv_not_both (e : FetchEv) (h1 : e.isAppend = true)
    (h2 : e.isPersist = true) : False := by
  cases e <;> simp [FetchEv.isAppend, FetchEv.isPersist] at h1 h2

theorem append_then_persist_index (A : List FetchEv) (c : Nat × Nat)
    (hAapp : ∀ e ∈ A, e.isAppend = true) (i j : Nat)
    (hi : i < (A ++ [FetchEv.persistCursor c]).length)
    (hj : j < (A ++ [FetchEv.persistCursor c]).length)
    (ha : ((A ++ [FetchEv.persistCursor c]).get ⟨i, hi⟩).isAppend = true)
    (hp : ((A ++ [FetchEv.persistCursor c]).get ⟨j, hj⟩).isPersist = true) :
    i < j := by
  have hlen : (A ++ [FetchEv.persistCursor c]).length = A.length + 1 := by simp
  have hjA : j = A.length := by
    by_contra hc
    have hjlt : j < A.length := by
      have := hj
      rw [hlen] at this
      omega
    have hget : (A ++ [FetchEv.persistCursor c]).get ⟨j, hj⟩ = A.get ⟨j, hjlt⟩ := by
      simp [List.getElem_append_left hjlt]
    rw [hget] at hp
    exact fetchEv_not_both _ (hAapp _ (List.get_mem A j hjlt)) hp
  have hiA : i < A.length := by
    rcases Nat.lt_or_ge i A.length with h | h
    · exact h
    · have hieq : i = A.length := by
        have := hi
        rw [hlen] at this
        omega
      have hget : (A ++ [FetchEv.persistCursor c]).get ⟨i, hi⟩ =
          FetchEv.persistCursor c := by
        subst hieq
        simp [List.getElem_append_right (Nat.le_refl A.length)]
      rw [hget] at ha
      exact absurd ha (by simp [FetchEv.isAppend])
  omega

/-- Claim C5: within a single `fetch_folder` call the persisted-cursor write
happens only after the dispatched batch appends have finished: in the event
trace of one cycle, every append event strictly precedes every cursor-persist
event, so a crash mid-fetch leaves the old cursor in place. -/
theorem fetch_folder_cursor_after_appends (saved : Option (Nat × Nat))
    (remUV remUN : Nat) (search : Nat → List Nat)
    (split : List Nat → List (List Nat)) (i j : Nat)
    (hi : i < (fetch_folder_events saved remUV remUN search split).length)
    (hj : j < (fetch_folder_events saved remUV remUN search split).length)
    (ha : ((fetch_folder_events saved remUV remUN search split).get
      ⟨i, hi⟩).isAppend = true)
    (hp : ((fetch_folder_events saved remUV remUN search split).get
      ⟨j, hj⟩).isPersist = true) :
    i < j := by
  have hAapp : ∀ e ∈ (if (fetch_folder saved remUV remUN search).1.length ≠ 0 then
      call_async_events (split (fetch_folder saved remUV remUN search).1) else []),
      e.isAppend = true := by
    intro e he
    by_cases hc : (fetch_folder saved remUV remUN search).1.length ≠ 0
    · rw [if_pos hc] at he
      simp only [call_async_events, List.mem_map] at he
      obtain ⟨b, _, hb⟩ := he
      rw [← hb]
      rfl
    · rw [if_neg hc] at he
      simp at he
  exact append_then_persist_index
    (if (fetch_folder saved remUV remUN search).1.length ≠ 0 then
      call_async_events (split (fetch_folder saved remUV remUN search).1) else [])
    (fetch_folder saved remUV remUN search).2 hAapp i j hi hj ha hp

/-- Witness for C5: one batch `[1]` fetched with remote cursor `(1, 2)`; the
append event at index 0 precedes the persist event at index 1. -/
theorem fetch_folder_cursor_after_appends_witness :
    ((fetch_folder_events none 1 2 (fun _ => [1]) (fun u => [u])).get
      ⟨0, by decide⟩).isAppend = true ∧
    ((fetch_folder_events none 1 2 (fun _ => [1]) (fun u => [u])).get
      ⟨1, by decide⟩).isPersist = true ∧
    (0 : Nat) < 1 :=
  ⟨by decide, by decide,
   fetch_folder_cursor_after_appends none 1 2 (fun _ => [1]) (fun u => [u]) 0 1
     (by decide) (by decide) (by decide) (by decide)⟩

/-- Claim C6: for every tokenized input, the clause list produced by
`parse_query` contains `unkeyword #link`; it contains `unkeyword #trash`
unless `#trash` is among the collected tags; it contains `unkeyword #spam`
unless `#spam` or `#trash` is among the collected tags; `parse_query` joins
exactly these clauses, and an empty clause list would finalize to `all`. -/
theorem parse_query_implicit_clauses (toks : List QTok) (parts : List String)
    (h : queryClauses toks = some parts) :
    "unkeyword #link" ∈ parts ∧
    ((optsOf toks).tags.contains "#trash" = false → "unkeyword #trash" ∈ parts) ∧
    ((optsOf toks).tags.contains "#spam" = false →
      (optsOf toks).tags.contains "#trash" = false → "unkeyword #spam" ∈ parts) ∧
    parse_query toks = some (finalizeQuery parts, optsOf toks) ∧
    finalizeQuery [] = "all" := by
  obtain ⟨cls, hcls, hparts⟩ := Option.map_eq_some'.mp h
  refine ⟨?_, ?_, ?_, ?_, by decide⟩
  · rw [← hparts]
    simp
  · intro ht
    rw [← hparts]
    have ht2 : "#trash" ∉ (optsOf toks).tags := by simpa using ht
    simp [ht2]
  · intro hs ht
    rw [← hparts]
    have hs2 : "#spam" ∉ (optsOf toks).tags := by simpa using hs
    have ht2 : "#trash" ∉ (optsOf toks).tags := by simpa using ht
    simp [hs2, ht2]
  · simp [parse_query, h]

/-- Witness for C6, scenario S7 of the spec: the input
`in:#inbox from:alice subj:"q1 report" :unread` yields all three implicit
clauses alongside the token clauses. -/
theorem parse_query_implicit_clauses_witness :
    queryClauses [QTok.tagQ "#inbox", QTok.fromQ "alice",
        QTok.subj "\"q1 report\"", QTok.unseen] =
      some ["keyword #inbox", "from \"alice\"", "header subject \"q1 report\"",
        "unseen", "unkeyword #link", "unkeyword #trash", "unkeyword #spam"] ∧
    "unkeyword #link" ∈ ["keyword #inbox", "from \"alice\"",
      "header subject \"q1 report\"", "unseen", "unkeyword #link",
      "unkeyword #trash", "unkeyword #spam"] :=
  ⟨by decide,
   (parse_query_implicit_clauses [QTok.tagQ "#inbox", QTok.fromQ "alice",
      QTok.subj "\"q1 report\"", QTok.unseen]
      ["keyword #inbox", "from \"alice\"", "header subject \"q1 report\"",
        "unseen", "unkeyword #link", "unkeyword #trash", "unkeyword #spam"]
      (by decide)).1⟩

theorem string_data_append (a b : String) : (a ++ b).data = a.data ++ b.data := rfl

theorem drop_prefix_data (p r : String) : (p ++ r).data.drop p.data.length = r.data := by
  rw [string_data_append]
  exact List.drop_left p.data r.data

/-- Claim C7: every row appended to `SRC` by `fetch_imap` or `fetch_gmail`
stores exactly the CRLF-joined provenance header block (ending in one final
CRLF produced by the empty trailing entry) followed by the original remote
bytes; dropping the prepended block recovers those bytes byte-for-byte, and
the row's `X-SHA256` value is the hash of the original bytes. -/
theorem src_row_provenance (sha utf7 getTag : String → String)
    (host login gmLogin gmTag : String) (tag : Option String) :
    (∀ (src : List SrcRow) (batch : List RemMsg) (row : SrcRow),
      row ∈ fetch_imap sha host login tag src batch →
      row ∈ src ∨ ∃ m ∈ batch,
        row.payload = provImap (sha m.raw) host login ++ m.raw ∧
        row.payload.data.drop (provImap (sha m.raw) host login).data.length =
          m.raw.data ∧
        row.sha = sha m.raw) ∧
    (∀ (src : List GmSrcRow) (batch : List GmailMsg) (row : GmSrcRow),
      row ∈ fetch_gmail sha utf7 getTag gmLogin gmTag src batch →
      row ∈ src ∨ ∃ m ∈ batch, ∃ xthrid : Option String,
        row.payload =
          provGmail (sha m.raw) m.uid m.msgid m.thrid gmLogin xthrid ++ m.raw ∧
        row.payload.data.drop
          (provGmail (sha m.raw) m.uid m.msgid m.thrid gmLogin xthrid).data.length =
          m.raw.data ∧
        row.sha = sha m.raw) := by
  constructor
  · intro src batch row hrow
    rw [fetch_imap_eq] at hrow
    rcases List.mem_append.mp hrow with hsrc | hmap
    · exact Or.inl hsrc
    · right
      obtain ⟨m, hm, hrm⟩ := List.mem_map.mp hmap
      have hmb : m ∈ batch := (List.mem_filter.mp hm).1
      refine ⟨m, hmb, ?_, ?_, ?_⟩ <;> rw [← hrm]
      · rfl
      · exact drop_prefix_data _ m.raw
      · rfl
  · intro src batch row hrow
    rw [fetch_gmail_eq] at hrow
    rcases List.mem_append.mp hrow with hsrc | hmap
    · exact Or.inl hsrc
    · right
      obtain ⟨m, hm, hrm⟩ := List.mem_map.mp hmap
      have hmb : m ∈ batch :=
        (List.mem_filter.mp (List.mem_filter.mp hm).1).1
      refine ⟨m, hmb,
        ((splitSp (flags_by_gmail utf7 getTag gmTag m.flags m.labels)).filter
          isThridTok).head?, ?_, ?_, ?_⟩ <;> rw [← hrm]
      · rfl
      · exact drop_prefix_data _ m.raw
      · rfl

/-- Witness for C7: a one-message generic fetch and a one-message Gmail fetch
into an empty `SRC`; the stored payloads carry the provenance blocks in front
of the raw bytes. -/
theorem src_row_provenance_witness :
    (mkImapRow id "h.com" "me" none ⟨1, "t1", "", "RAWBYTES"⟩ ∈
      fetch_imap id "h.com" "me" none [] [⟨1, "t1", "", "RAWBYTES"⟩]) ∧
    ((mkImapRow id "h.com" "me" none ⟨1, "t1", "", "RAWBYTES"⟩ ∈
        ([] : List SrcRow) ∨
      ∃ m ∈ [(⟨1, "t1", "", "RAWBYTES"⟩ : RemMsg)],
        (mkImapRow id "h.com" "me" none ⟨1, "t1", "", "RAWBYTES"⟩).payload =
          provImap (id m.raw) "h.com" "me" ++ m.raw ∧
        (mkImapRow id "h.com" "me" none
            ⟨1, "t1", "", "RAWBYTES"⟩).payload.data.drop
          (provImap (id m.raw) "h.com" "me").data.length = m.raw.data ∧
        (mkImapRow id "h.com" "me" none ⟨1, "t1", "", "RAWBYTES"⟩).sha =
          id m.raw)) :=
  ⟨by decide,
   (src_row_provenance id id id "h.com" "me" "gu" "\\All" none).1 []
     [⟨1, "t1", "", "RAWBYTES"⟩]
     (mkImapRow id "h.com" "me" none ⟨1, "t1", "", "RAWBYTES"⟩) (by decide)⟩

theorem gmailLabelTok_fixed (u g : String → String) (t dec res : String)
    (hne : t ≠ "")
    (hdec : String.mk (decodeBackslashes (stripQuotes t).data) = dec)
    (hu : u dec = dec) (hmap : map_labels_tok dec = some res) :
    gmailLabelTok u g t = res := by
  simp [gmailLabelTok, hne, hdec, hu, hmap]

/-- Claim C8: `flags_by_gmail` maps each whitespace-separated IMAP system flag
token through the identity (the five system flags map to themselves, anything
else is dropped); label tokenization respects double-quoted groups; a doubled
backslash in a label decodes to a single one; the token is decoded from
modified UTF-7 before the label map is consulted; `\Starred` maps to
`\Flagged`, `\Inbox` to `#inbox`, `\Junk` to `#spam`, `\Trash` to `#trash`,
`\Sent` to `#sent`, `\Chats` to `#chats`, `\Important` is dropped; and the
folder-of-origin tag of the `tag` argument is appended. -/
theorem flags_by_gmail_mapping :
    (∀ t : String, (t = "\\Answered" ∨ t = "\\Flagged" ∨ t = "\\Deleted" ∨
      t = "\\Seen" ∨ t = "\\Draft") → map_flags_tok t = t) ∧
    (∀ t : String, ¬(t = "\\Answered" ∨ t = "\\Flagged" ∨ t = "\\Deleted" ∨
      t = "\\Seen" ∨ t = "\\Draft") → map_flags_tok t = "") ∧
    labelTokens ("\"a b\" c".data) = ["\"a b\"", "c"] ∧
    String.mk (decodeBackslashes (stripQuotes "\"a\\\\b\"").data) = "a\\b" ∧
    (∀ u g : String → String, u "\\Starred" = "\\Starred" →
      gmailLabelTok u g "\\Starred" = "\\Flagged") ∧
    (∀ u g : String → String, u "\\Inbox" = "\\Inbox" →
      gmailLabelTok u g "\\Inbox" = "#inbox") ∧
    (∀ u g : String → String, u "\\Junk" = "\\Junk" →
      gmailLabelTok u g "\\Junk" = "#spam") ∧
    (∀ u g : String → String, u "\\Trash" = "\\Trash" →
      gmailLabelTok u g "\\Trash" = "#trash") ∧
    (∀ u g : String → String, u "\\Sent" = "\\Sent" →
      gmailLabelTok u g "\\Sent" = "#sent") ∧
    (∀ u g : String → String, u "\\Chats" = "\\Chats" →
      gmailLabelTok u g "\\Chats" = "#chats") ∧
    (∀ u g : String → String, u "\\Important" = "\\Important" →
      gmailLabelTok u g "\\Important" = "") ∧
    (∀ g : String → String, gmailLabelTok (fun _ => "\\Starred") g "abc" =
      "\\Flagged") ∧
    (∀ u g : String → String, flags_by_gmail u g "\\Inbox" "\\Seen" "" =
      "\\Seen  #inbox") := by
  refine ⟨fun t ht => if_pos ht, fun t ht => if_neg ht, by decide, by decide,
    ?_, ?_, ?_, ?_, ?_, ?_, ?_, fun g => rfl, fun u g => rfl⟩
  · exact fun u g hu =>
      gmailLabelTok_fixed u g "\\Starred" "\\Starred" "\\Flagged"
        (by decide) (by decide) hu (by decide)
  · exact fun u g hu =>
      gmailLabelTok_fixed u g "\\Inbox" "\\Inbox" "#inbox"
        (by decide) (by decide) hu (by decide)
  · exact fun u g hu =>
      gmailLabelTok_fixed u g "\\Junk" "\\Junk" "#spam"
        (by decide) (by decide) hu (by decide)
  · exact fun u g hu =>
      gmailLabelTok_fixed u g "\\Trash" "\\Trash" "#trash"
        (by decide) (by decide) hu (by decide)
  · exact fun u g hu =>
      gmailLabelTok_fixed u g "\\Sent" "\\Sent" "#sent"
        (by decide) (by decide) hu (by decide)
  · exact fun u g hu =>
      gmailLabelTok_fixed u g "\\Chats" "\\Chats" "#chats"
        (by decide) (by decide) hu (by decide)
  · exact fun u g hu =>
      gmailLabelTok_fixed u g "\\Important" "\\Important" ""
        (by decide) (by decide) hu (by decide)

/-- Witness for C8: concrete applications with the identity as UTF-7 decoder
and tag registry. -/
theorem flags_by_gmail_mapping_witness :
    map_flags_tok "\\Seen" = "\\Seen" ∧ map_flags_tok "custom" = "" ∧
    gmailLabelTok id id "\\Starred" = "\\Flagged" ∧
    gmailLabelTok id id "\\Important" = "" ∧
    flags_by_gmail id id "\\Inbox" "\\Seen" "" = "\\Seen  #inbox" :=
  ⟨flags_by_gmail_mapping.1 "\\Seen" (by decide),
   flags_by_gmail_mapping.2.1 "custom" (by decide),
   flags_by_gmail_mapping.2.2.2.2.1 id id (by decide),
   flags_by_gmail_mapping.2.2.2.2.2.2.2.2.2.2.1 id id (by decide),
   flags_by_gmail_mapping.2.2.2.2.2.2.2.2.2.2.2.2 id id⟩

/-- Claim C9 (code bug): `date:YYYY` and `date:YYYY-MM-DD` widen as claimed
(`since 01-Jan-2020 before 01-Jan-2021`, `on 25-Dec-2020`), and so does
`date:YYYY-MM` for January through November — but for December the code
computes `date.replace(month=13)`, which raises `ValueError` instead of
producing `since 01-Dec-2020 before 01-Jan-2021`, so the claim's "every month
including December" fails on the code. -/
theorem date_query_december_bug :
    dateClause 2020 none none = some "since 01-Jan-2020 before 01-Jan-2021" ∧
    dateClause 2020 (some 11) none = some "since 01-Nov-2020 before 01-Dec-2020" ∧
    dateClause 2020 (some 12) (some 25) = some "on 25-Dec-2020" ∧
    dateClause 2020 (some 12) none = none := by
  decide

/-- Counterexample to C10 as stated: at the HTTP boundary the three handlers
do not answer an empty `uids` list with status 400.  They are wrapped by the
`endpoint` decorator (web.py lines 47-55), whose `except Exception` catches
the `HTTPError` raised by `abort(400)` and answers 500: on the concrete
request with `uids = []` each wrapped handler returns status 500, not 400. -/
theorem empty_uids_abort_cex :
    endpoint (msgs_info [] []) = ([], 500) ∧
    endpoint (msgs_body [] true (fun _ => [])) = ([], 500) ∧
    endpoint (thrs_info [] []) = ([], 500) ∧
    (500 : Nat) ≠ 400 := by
  decide

/-- Claim C10, amended: for every request to `POST /msgs/info`,
`POST /msgs/body` or `POST /thrs/info` whose `uids` field is an empty list,
the handler raises `abort(400)` before performing any read of message bodies
or any flag change (its effect trace is empty; in particular `msgs_body`
marks no message as `\Seen`), but the `endpoint` wrapper catches that
`HTTPError` and the HTTP response status is 500, not 400. -/
theorem empty_uids_abort_amended :
    ∀ (hide : List String) (read : Bool) (search : String → List String),
      msgs_info [] hide = ([], HandlerOutcome.httpError 400) ∧
      msgs_body [] read search = ([], HandlerOutcome.httpError 400) ∧
      thrs_info [] hide = ([], HandlerOutcome.httpError 400) ∧
      endpoint (msgs_info [] hide) = ([], 500) ∧
      endpoint (msgs_body [] read search) = ([], 500) ∧
      endpoint (thrs_info [] hide) = ([], 500) :=
  fun _ _ _ => ⟨rfl, rfl, rfl, rfl, rfl, rfl⟩
